import Mathlib

/-!
Verification development for the chat backend (DexterNutt/chatapp).

The definitions below are a shallow embedding of the TypeScript source:
database tables become lists of row structures, the drizzle query builder
calls become list filters and maps, the process-wide `clients` Map becomes
an association list with JS Map semantics, and the external collaborators
(MinIO uploads and presigned URLs, WebSocket sends, transaction commit)
are driven by explicit oracle environments so that failing executions can
be analysed.  Ids and timestamps are modelled as natural numbers.
-/

namespace Chatapp

/-- Error codes used by AppError (src/unnamed/part_011, appErrorCodesToHTTP). -/
inductive ErrorCode where
  | badRequest
  | unauthorized
  | forbidden
  | notFound
  | conflict
  | internalServerError
  deriving DecidableEq, Repr

/-- AppError carries a code and a human readable message (src/unnamed/part_011). -/
structure AppError where
  code : ErrorCode
  message : String
  deriving DecidableEq, Repr

/-- Participant roles, pgEnum user_role (src/src/lib/schema.ts line 3). -/
inductive Role where
  | admin
  | member
  deriving DecidableEq, Repr

/-- Row of the chats table (src/src/lib/schema.ts lines 31 to 37). -/
structure ChatRow where
  chatId : Nat
  creatorId : Nat
  name : Option String
  createdAt : Nat
  lastActivity : Nat
  deriving DecidableEq, Repr

/-- Row of the chat_participants table (src/src/lib/schema.ts lines 39 to 55).
The lastActivity column is NOT NULL with DEFAULT now(), so every persisted
participant row carries a last-activity marker. -/
structure ParticipantRow where
  chatId : Nat
  userId : Nat
  roles : List Role
  joinedAt : Nat
  lastActivity : Nat
  deriving DecidableEq, Repr

/-- Row of the messages table (src/src/lib/schema.ts lines 57 to 67). -/
structure MessageRow where
  messageId : Nat
  chatId : Nat
  senderId : Nat
  textContent : Option String
  createdAt : Nat
  deriving DecidableEq, Repr

/-- Row of the message_attachments table (src/src/lib/schema.ts lines 69 to 79). -/
structure AttachmentRow where
  attachmentId : Nat
  messageId : Nat
  fileName : String
  fileSize : Nat
  mimeType : String
  storagePath : String
  uploadedAt : Nat
  deriving DecidableEq, Repr

/-- The relational state touched by the chat service, plus a counter from
which the server-generated ids (defaultRandom uuids in the schema) are
drawn: each insert consumes nextId, so fresh rows never collide with
existing ones. -/
structure DB where
  chats : List ChatRow
  participants : List ParticipantRow
  messages : List MessageRow
  attachments : List AttachmentRow
  nextId : Nat
  deriving DecidableEq, Repr

/-- A live connection handle (a ws WebSocket or Bun ServerWebSocket value).
readyState 1 is OPEN. -/
structure WsClient where
  handleId : Nat
  readyState : Nat
  deriving DecidableEq, Repr

/-- The process-wide registry: Map of user id to connection handle
(clients in src/src/lib/ws.ts line 11 and src/unnamed/part_004 line 23).
Modelled as an association list with JS Map semantics. -/
abbrev ClientMap : Type := List (Nat × WsClient)

/-- JS Map.prototype.get. -/
def mapGet (m : ClientMap) (k : Nat) : Option WsClient :=
  (List.find? (fun p => p.1 == k) m).map (fun p => p.2)

/-- JS Map.prototype.set: replaces the value of an existing key in place,
otherwise appends in insertion order. -/
def mapSet (m : ClientMap) (k : Nat) (v : WsClient) : ClientMap :=
  if List.any m (fun p => p.1 == k) then
    List.map (fun p => if p.1 == k then (k, v) else p) m
  else
    m ++ [(k, v)]

/-- JS Map.prototype.delete, keyed by user id only. -/
def mapDelete (m : ClientMap) (k : Nat) : ClientMap :=
  List.filter (fun p => !(p.1 == k)) m

/-- The empty registry. -/
def mapEmpty : ClientMap := []

/-- Handler run on WebSocket close: clients.delete(userId), unconditionally,
without comparing the stored handle with the closing handle
(src/src/lib/ws.ts lines 64 to 67; src/unnamed/part_004 lines 197 to 200). -/
def wsOnClose (m : ClientMap) (userId : Nat) : ClientMap :=
  mapDelete m userId

/-- Registration performed after a successful upgrade:
clients.set(userId, ws) (src/src/lib/ws.ts line 44). -/
def wsRegister (m : ClientMap) (userId : Nat) (ws : WsClient) : ClientMap :=
  mapSet m userId ws

/-- Worker for jsDedup: drop elements already seen, keep first occurrences
in order. -/
def jsDedupAux (seen : List Nat) : List Nat → List Nat
  | [] => []
  | x :: xs =>
      if seen.contains x then jsDedupAux seen xs
      else x :: jsDedupAux (x :: seen) xs

/-- Deduplication via a JS Set spread, keeping first occurrences in order:
the idiom [...new Set(list)] (src/src/api/chat/service.ts line 34). -/
def jsDedup (l : List Nat) : List Nat :=
  jsDedupAux [] l

/-- Attachment record as returned to callers, with a resolved presigned URL
(the MessageAttachment shape built in ChatService.sendMessage,
src/src/api/chat/service.ts lines 261 to 270). -/
structure MappedAttachment where
  attachmentId : Nat
  messageId : Nat
  fileName : String
  fileSize : Nat
  mimeType : String
  storagePath : String
  url : String
  uploadedAt : Nat
  deriving DecidableEq, Repr

/-- Message as returned to callers and broadcast in the new_message event
(the Message shape built in ChatService.sendMessage,
src/src/api/chat/service.ts lines 275 to 283). -/
structure MappedMessage where
  messageId : Nat
  chatId : Nat
  senderId : Nat
  content : String
  userId : Nat
  textContent : Option String
  attachments : List MappedAttachment
  deriving DecidableEq, Repr

/-- Discriminated event envelope pushed over a connection handle. -/
inductive WsPayload where
  | chatCreated (chatId : Nat) (creatorId : Nat) (name : Option String)
      (participants : List Nat) (createdAt : Nat)
  | newMessage (m : MappedMessage)
  deriving DecidableEq, Repr

/-- Model of the external MinIO presigned URL collaborator
(minioClient.presignedGetObject in ChatService.getAttachmentUrl,
src/src/api/chat/service.ts lines 339 to 347), treated as an opaque
deterministic function of the storage path. -/
def presignUrl (storagePath : String) : String :=
  "presigned/" ++ storagePath

/-- ChatService.getParticipants (src/src/api/chat/service.ts lines 133 to 144):
select userId from chat_participants where chatId matches. -/
def getParticipants (db : DB) (chatId : Nat) : List Nat :=
  List.map (fun r => r.userId)
    (List.filter (fun r : ParticipantRow => r.chatId == chatId) db.participants)

/-- ChatService.getMessageAttachments (src/src/api/chat/service.ts lines
349 to 375): attachment rows of one message, each with a presigned URL. -/
def getMessageAttachments (db : DB) (messageId : Nat) : List MappedAttachment :=
  List.map
    (fun r : AttachmentRow =>
      { attachmentId := r.attachmentId
        messageId := r.messageId
        fileName := r.fileName
        fileSize := r.fileSize
        mimeType := r.mimeType
        storagePath := r.storagePath
        url := presignUrl r.storagePath
        uploadedAt := r.uploadedAt })
    (List.filter (fun r : AttachmentRow => r.messageId == messageId) db.attachments)

/-- ChatService.getMessages (src/src/api/chat/service.ts lines 377 to 407):
all messages of a chat, each mapped with its attachments. -/
def getMessages (db : DB) (chatId : Nat) : List MappedMessage :=
  List.map
    (fun m : MessageRow =>
      { messageId := m.messageId
        chatId := m.chatId
        senderId := m.senderId
        content := m.textContent.getD ""
        userId := m.senderId
        textContent := m.textContent
        attachments := getMessageAttachments db m.messageId })
    (List.filter (fun m : MessageRow => m.chatId == chatId) db.messages)

/-- Chat as returned by fetchChatDetails (src/src/api/chat/service.ts
lines 118 to 126). -/
structure ChatView where
  chatId : Nat
  creatorId : Nat
  name : Option String
  createdAt : Nat
  lastActivity : Nat
  messages : List MappedMessage
  participants : List Nat
  deriving DecidableEq, Repr

/-- ChatService.fetchChatDetails (src/src/api/chat/service.ts lines 99 to
131): none when the chat row is missing, otherwise the row joined with its
messages and participant ids. -/
def fetchChatDetails (db : DB) (chatId : Nat) : Option ChatView :=
  match List.find? (fun c : ChatRow => c.chatId == chatId) db.chats with
  | none => none
  | some c =>
      some
        { chatId := c.chatId
          creatorId := c.creatorId
          name := c.name
          createdAt := c.createdAt
          lastActivity := c.lastActivity
          messages := getMessages db c.chatId
          participants := getParticipants db c.chatId }

/-- Oracle for the fan-out loop: whether client.send on the handle with the
given id raises. -/
structure SendEnv where
  sendRaises : Nat → Bool

/-- ChatService.notifyParticipants (src/src/api/chat/service.ts lines 428 to
437): for each participant id, look up the registry; if a handle is present
and OPEN, call send on it.  The forEach body has no try/catch, so a raising
send propagates out of the loop; participants later in the list are not
reached.  Returns the list of deliveries performed together with a flag
telling whether a send raised. -/
def notifyParticipants (env : SendEnv) (clients : ClientMap) :
    List Nat → WsPayload → List (Nat × WsPayload) × Bool
  | [], _ => ([], false)
  | userId :: rest, payload =>
    match mapGet clients userId with
    | some client =>
        if client.readyState == 1 then
          if env.sendRaises client.handleId then
            ([], true)
          else
            let tail := notifyParticipants env clients rest payload
            ((userId, payload) :: tail.1, tail.2)
        else
          notifyParticipants env clients rest payload
    | none => notifyParticipants env clients rest payload

/-- Loop body of ChatService.findExistingChat (src/src/api/chat/service.ts
lines 75 to 90): for each candidate chat, load all of its participants and
compare with the query; on the first candidate whose participant list has
the query length and is contained in the query, return fetchChatDetails for
it (even when that is null), otherwise keep scanning. -/
def findLoopA (db : DB) (participantIds : List Nat) :
    List (Nat × Nat) → Option ChatView
  | [] => none
  | (cid, _) :: rest =>
      let ids := getParticipants db cid
      if ids.length == participantIds.length
          && List.all ids (fun id => participantIds.contains id) then
        fetchChatDetails db cid
      else
        findLoopA db participantIds rest

/-- ChatService.findExistingChat (src/src/api/chat/service.ts lines 54 to
97): group the participant rows whose userId is in the query by chat,
keep the groups whose row count equals the query size, then verify each
candidate against its full participant list. -/
def findExistingChatA (db : DB) (participantIds : List Nat) : Option ChatView :=
  let filtered :=
    List.filter (fun r : ParticipantRow => participantIds.contains r.userId) db.participants
  let chatIds := jsDedup (List.map (fun r => r.chatId) filtered)
  let grouped :=
    List.map
      (fun cid =>
        (cid, (List.filter (fun r : ParticipantRow => r.chatId == cid) filtered).length))
      chatIds
  let exactMatchChats :=
    List.filter (fun g : Nat × Nat => g.2 == participantIds.length) grouped
  findLoopA db participantIds exactMatchChats

/-- Oracle environment for createChat: the transaction timestamp, the send
behaviour of each registered handle, and whether the commit fails. -/
structure CreateEnv where
  now : Nat
  sendRaises : Nat → Bool
  commitFails : Bool

/-- Outcome of a createChat call: the resulting persisted state, the frames
pushed to connected clients (sends are not transactional and survive a
rollback), and the returned chat or thrown error. -/
structure CreateOutcome where
  db : DB
  sent : List (Nat × WsPayload)
  result : Except AppError ChatView

/-- ChatService.createNewChat (src/src/api/chat/service.ts lines 146 to
208): inside one transaction, insert the chat row and one participant row
per id (admin role for the creator, member otherwise) and notify the
participants; any failure rolls the inserts back and the catch re-throws
INTERNAL_SERVER_ERROR. -/
def createNewChat (env : CreateEnv) (clients : ClientMap) (db : DB)
    (creatorId : Nat) (name : Option String) (participantIds : List Nat) :
    CreateOutcome :=
  let chatId := db.nextId
  let chatRow : ChatRow :=
    { chatId := chatId, creatorId := creatorId, name := name
      createdAt := env.now, lastActivity := env.now }
  let participantRecords :=
    List.map
      (fun userId =>
        { chatId := chatId
          userId := userId
          roles := if userId == creatorId then [Role.admin] else [Role.member]
          joinedAt := env.now
          lastActivity := env.now : ParticipantRow })
      participantIds
  let db2 : DB :=
    { db with
      chats := db.chats ++ [chatRow]
      participants := db.participants ++ participantRecords
      nextId := db.nextId + 1 }
  let payload := WsPayload.chatCreated chatId creatorId name participantIds env.now
  let notified := notifyParticipants ⟨env.sendRaises⟩ clients participantIds payload
  if notified.2 then
    { db := db, sent := notified.1
      result := .error ⟨.internalServerError, "Failed to create new chat."⟩ }
  else if env.commitFails then
    { db := db, sent := notified.1
      result := .error ⟨.internalServerError, "Failed to create new chat."⟩ }
  else
    { db := db2, sent := notified.1
      result := .ok
        { chatId := chatId, creatorId := creatorId, name := name
          createdAt := env.now, lastActivity := env.now
          messages := [], participants := participantIds } }

/-- ChatService.createChat (src/src/api/chat/service.ts lines 31 to 52):
deduplicate creator plus participants, require at least 2 distinct ids,
throw BAD_REQUEST when findExistingChat matches (the source throws Chat
already exists rather than returning the existing chat), else create.  The
surrounding catch converts every error thrown inside it, including the
Chat-already-exists one, into BAD_REQUEST Failed to create chat. -/
def createChat (env : CreateEnv) (clients : ClientMap) (db : DB)
    (creatorId : Nat) (requestParticipantIds : List Nat) (name : Option String) :
    CreateOutcome :=
  let participantIds := jsDedup (creatorId :: requestParticipantIds)
  if participantIds.length < 2 then
    { db := db, sent := []
      result := .error ⟨.badRequest, "Chat must have at least 2 participants."⟩ }
  else
    match findExistingChatA db participantIds with
    | some _ =>
        { db := db, sent := []
          result := .error ⟨.badRequest, "Failed to create chat."⟩ }
    | none =>
        let out := createNewChat env clients db creatorId name participantIds
        { out with
          result := out.result.mapError
            (fun _ => ⟨.badRequest, "Failed to create chat."⟩) }

/-- Oracle environment for sendMessage: transaction timestamp, the outcome
of the MinIO upload and of the presigned URL call for the i-th attachment,
the collision-resistant random file name for the i-th attachment, the send
behaviour of each handle, and whether the commit fails. -/
structure SendMsgEnv where
  now : Nat
  uploadFails : Nat → Bool
  urlFails : Nat → Bool
  randKey : Nat → String
  sendRaises : Nat → Bool
  commitFails : Bool

/-- One attachment payload of a send-message request (base64 data). -/
structure AttachmentPayload where
  filename : String
  contentType : String
  data : String
  deriving DecidableEq, Repr

/-- A send-message request (the sendMessage model type); replyToMessageId
is accepted by the schema but never written by the insert. -/
structure SendMessageRequest where
  chatId : Nat
  senderId : Nat
  content : String
  replyToMessageId : Option Nat
  attachments : List AttachmentPayload
  deriving DecidableEq, Repr

/-- Value produced by ChatService.uploadAttachment on success
(src/src/api/chat/service.ts lines 299 to 337). -/
structure UploadedAttachment where
  fileName : String
  fileSize : Nat
  mimeType : String
  storagePath : String
  deriving DecidableEq, Repr

/-- ChatService.uploadAttachment (src/src/api/chat/service.ts lines 299 to
337): build the storage key from the message id and a random suffix and
put the decoded bytes to MinIO; its catch converts a failing put into
INTERNAL_SERVER_ERROR.  The decoded byte size is abstracted as the length
of the data string. -/
def uploadAttachment (env : SendMsgEnv) (i : Nat) (messageId : Nat)
    (a : AttachmentPayload) : Except AppError UploadedAttachment :=
  if env.uploadFails i then
    .error ⟨.internalServerError, "Failed to upload attachment."⟩
  else
    .ok
      { fileName := a.filename
        fileSize := a.data.length
        mimeType := a.contentType
        storagePath := toString messageId ++ "/" ++ env.randKey i }

/-- The per-attachment loop inside the sendMessage transaction
(src/src/api/chat/service.ts lines 236 to 272): upload to blob storage,
insert the attachment row, resolve the presigned URL, accumulate the
mapped record; the first failure aborts the loop (and the transaction). -/
def attachLoop (env : SendMsgEnv) (messageId : Nat) :
    List AttachmentPayload → Nat → DB → Except AppError (DB × List MappedAttachment)
  | [], _, db => .ok (db, [])
  | a :: rest, i, db =>
    match uploadAttachment env i messageId a with
    | .error e => .error e
    | .ok up =>
        let attId := db.nextId
        let row : AttachmentRow :=
          { attachmentId := attId, messageId := messageId
            fileName := up.fileName, fileSize := up.fileSize
            mimeType := up.mimeType, storagePath := up.storagePath
            uploadedAt := env.now }
        let db1 : DB :=
          { db with attachments := db.attachments ++ [row], nextId := db.nextId + 1 }
        if env.urlFails i then
          .error ⟨.internalServerError, "Failed to generate attachment URL."⟩
        else
          let mapped : MappedAttachment :=
            { attachmentId := attId, messageId := messageId
              fileName := up.fileName, fileSize := up.fileSize
              mimeType := up.mimeType, storagePath := up.storagePath
              url := presignUrl up.storagePath, uploadedAt := env.now }
          match attachLoop env messageId rest (i + 1) db1 with
          | .error e => .error e
          | .ok out => .ok (out.1, mapped :: out.2)

/-- Outcome of a sendMessage call: persisted state, frames pushed to
connected clients, and the returned message or thrown error. -/
structure SendOutcome where
  db : DB
  sent : List (Nat × WsPayload)
  result : Except AppError MappedMessage

/-- The catch block of ChatService.sendMessage (src/src/api/chat/service.ts
lines 293 to 296): every error thrown inside the try, including the typed
FORBIDDEN participant error, is replaced by a generic
INTERNAL_SERVER_ERROR Failed to send message. -/
def wrapSendMessageError (e : AppError) : AppError :=
  match e with
  | _ => ⟨.internalServerError, "Failed to send message."⟩

/-- ChatService.sendMessage (src/src/api/chat/service.ts lines 210 to 297):
check that the sender has a participant row (throwing FORBIDDEN otherwise),
then in one transaction insert the message row, run the attachment loop,
update the chat lastActivity, and broadcast new_message to the chats
participants (notifyParticipants runs inside the still open transaction;
the participant list is read through the outer db handle).  Any error
thrown inside the try, and a failing commit, leaves the transactional
tables untouched, while frames already pushed to clients stand. -/
def sendMessage (env : SendMsgEnv) (clients : ClientMap) (db : DB)
    (req : SendMessageRequest) : SendOutcome :=
  let participantCheck :=
    List.filter
      (fun r : ParticipantRow => r.chatId == req.chatId && r.userId == req.senderId)
      db.participants
  if participantCheck.length == 0 then
    { db := db, sent := []
      result := .error (wrapSendMessageError
        ⟨.forbidden, "User is not a participant in this chat."⟩) }
  else
    let messageId := db.nextId
    let row : MessageRow :=
      { messageId := messageId, chatId := req.chatId, senderId := req.senderId
        textContent := some req.content, createdAt := env.now }
    let db1 : DB := { db with messages := db.messages ++ [row], nextId := db.nextId + 1 }
    match attachLoop env messageId req.attachments 0 db1 with
    | .error e => { db := db, sent := [], result := .error (wrapSendMessageError e) }
    | .ok out =>
        let db3 : DB :=
          { out.1 with
            chats :=
              List.map
                (fun c : ChatRow =>
                  if c.chatId == req.chatId then { c with lastActivity := env.now } else c)
                out.1.chats }
        let mapped : MappedMessage :=
          { messageId := messageId, chatId := req.chatId, senderId := req.senderId
            content := req.content, userId := req.senderId
            textContent := some req.content, attachments := out.2 }
        let parts := getParticipants db req.chatId
        let notified :=
          notifyParticipants ⟨env.sendRaises⟩ clients parts (.newMessage mapped)
        if notified.2 then
          { db := db, sent := notified.1
            result := .error (wrapSendMessageError
              ⟨.internalServerError, "send raised"⟩) }
        else if env.commitFails then
          { db := db, sent := notified.1
            result := .error (wrapSendMessageError
              ⟨.internalServerError, "commit failed"⟩) }
        else
          { db := db3, sent := notified.1, result := .ok mapped }

/-- Message shape returned by the part_006 ChatService.fetchMessages
(src/unnamed/part_006 lines 820 to 830): the selected row columns with
textContent defaulted to the empty string, plus resolved attachments. -/
structure MappedMessage2 where
  messageId : Nat
  chatId : Nat
  senderId : Nat
  textContent : String
  createdAt : Nat
  attachments : List MappedAttachment
  deriving DecidableEq, Repr

/-- The orderBy desc createdAt limit 1 query of the previewOnly branch
(src/unnamed/part_006 lines 790 to 804): the single most recent message,
keeping the earlier row on equal timestamps. -/
def latestMessage : List MessageRow → List MessageRow
  | [] => []
  | m :: rest =>
      [List.foldl (fun best x => if best.createdAt < x.createdAt then x else best) m rest]

/-- ChatService.fetchMessages of part_006 (src/unnamed/part_006 lines 753
to 835).  unreadOnly mode loads the callers participant row limit 1; a
missing row (the lastActivity column is NOT NULL, and a Date object is
always truthy in JS, so only a missing row yields a null marker) returns
the empty message list at once; otherwise it selects the chats messages
with createdAt strictly greater than the marker.  previewOnly returns the
most recent message; the default branch returns every message of the chat.
Each selected row is then mapped with its attachments. -/
def fetchMessagesP6 (db : DB) (chatId userId : Nat)
    (fetchUnread fetchPreview : Bool) : List MappedMessage2 :=
  let messageRows : List MessageRow :=
    if fetchUnread then
      match
        List.find?
          (fun r : ParticipantRow => r.chatId == chatId && r.userId == userId)
          db.participants with
      | none => []
      | some prow =>
          List.filter
            (fun m : MessageRow =>
              m.chatId == chatId && decide (prow.lastActivity < m.createdAt))
            db.messages
    else if fetchPreview then
      latestMessage (List.filter (fun m : MessageRow => m.chatId == chatId) db.messages)
    else
      List.filter (fun m : MessageRow => m.chatId == chatId) db.messages
  List.map
    (fun m : MessageRow =>
      { messageId := m.messageId
        chatId := m.chatId
        senderId := m.senderId
        textContent := m.textContent.getD ""
        createdAt := m.createdAt
        attachments := getMessageAttachments db m.messageId })
    messageRows

/-- ChatService.fetchParticipants of part_006 (src/unnamed/part_006 lines
742 to 751): select userId from chat_participants where chatId matches. -/
def fetchParticipants (db : DB) (chatId : Nat) : List Nat :=
  List.map (fun r => r.userId)
    (List.filter (fun r : ParticipantRow => r.chatId == chatId) db.participants)

/-- Chat shape of the part_006 variant (src/unnamed/part_006 lines 731 to
739). -/
structure ChatView2 where
  chatId : Nat
  createdAt : Nat
  creatorId : Nat
  lastActivity : Nat
  name : Option String
  messages : List MappedMessage2
  participants : List Nat
  deriving DecidableEq, Repr

/-- ChatService.fetchChatDetails of part_006 (src/unnamed/part_006 lines
709 to 740): none when the chat row is missing, else the row joined with
its full message list (fetchMessages in default mode) and participants. -/
def fetchChatDetailsB (db : DB) (chatId userId : Nat) : Option ChatView2 :=
  match List.find? (fun c : ChatRow => c.chatId == chatId) db.chats with
  | none => none
  | some c =>
      some
        { chatId := c.chatId
          createdAt := c.createdAt
          creatorId := c.creatorId
          lastActivity := c.lastActivity
          name := c.name
          messages := fetchMessagesP6 db chatId userId false false
          participants := fetchParticipants db c.chatId }

/-- ChatService.findExistingChat of part_006 (src/unnamed/part_006 lines
677 to 707): group the participant rows whose userId is in the query by
chat and aggregate exactly those (already filtered) userIds per chat,
keeping groups whose row count equals the query size; then compare the
aggregated ids of the FIRST group, as a JS Set, against the query set.
Aggregation order (ORDER BY userId in the SQL) does not affect the Set
comparison and is not modelled. -/
def findExistingChatB (db : DB) (participantIds : List Nat) : Option ChatView2 :=
  let filtered :=
    List.filter (fun r : ParticipantRow => participantIds.contains r.userId) db.participants
  let chatIds := jsDedup (List.map (fun r => r.chatId) filtered)
  let potentialChats :=
    List.filter (fun g : Nat × List Nat => g.2.length == participantIds.length)
      (List.map
        (fun cid =>
          (cid,
            List.map (fun r => r.userId)
              (List.filter (fun r : ParticipantRow => r.chatId == cid) filtered)))
        chatIds)
  match potentialChats with
  | [] => none
  | (cid, userIds) :: _ =>
      let chatSet := jsDedup userIds
      let inputSet := jsDedup participantIds
      if chatSet.length == inputSet.length
          && List.all chatSet (fun id => inputSet.contains id) then
        fetchChatDetailsB db cid (participantIds.headD 0)
      else
        none

/-- Row of the sessions table (src/src/lib/schema.ts lines 22 to 29): the
id doubles as the bearer token; userId is a nullable reference to users. -/
structure SessionRow where
  id : Nat
  userId : Option Nat
  expiresAt : Nat
  deriving DecidableEq, Repr

/-- Row of the users table (src/src/lib/schema.ts lines 5 to 10). -/
structure UserRow where
  userId : Nat
  email : String
  deriving DecidableEq, Repr

/-- Persisted state read by the session authenticator. -/
structure AuthDB where
  sessions : List SessionRow
  users : List UserRow
  deriving DecidableEq, Repr

/-- The auth context built by AuthService.createAuthContext
(src/src/api/auth/model.ts lines 75 to 78). -/
structure AuthContextView where
  sessionId : Nat
  userId : Nat
  email : String
  deriving DecidableEq, Repr

/-- The inner-join rows of the createAuthContext select
(src/src/api/auth/model.ts lines 56 to 69): sessions joined to users on
users.userId = sessions.userId, restricted to sessions whose id equals the
token and whose expiresAt is strictly greater than the current time. -/
def authJoinRows (db : AuthDB) (sessionToken now : Nat) :
    List (SessionRow × UserRow) :=
  List.flatten
    (List.map
      (fun s : SessionRow =>
        List.filterMap
          (fun u : UserRow =>
            if s.id == sessionToken && decide (now < s.expiresAt)
                && s.userId == some u.userId then
              some (s, u)
            else none)
          db.users)
      db.sessions)

/-- AuthService.createAuthContext (src/src/api/auth/model.ts lines 55 to
79): take the first row of the join; none means UNAUTHORIZED Invalid
session, otherwise return the session id and the joined users id. -/
def createAuthContext (db : AuthDB) (sessionToken now : Nat) :
    Except AppError AuthContextView :=
  match (authJoinRows db sessionToken now).head? with
  | none => .error ⟨.unauthorized, "Invalid session"⟩
  | some r => .ok { sessionId := r.1.id, userId := r.2.userId, email := r.2.email }

/-- State-passing view of createAuthContext: the handler issues a single
select and contains no insert, update or delete statement
(src/src/api/auth/model.ts lines 55 to 79), so the persisted state is
returned unchanged. -/
def createAuthContextS (db : AuthDB) (sessionToken now : Nat) :
    Except AppError AuthContextView × AuthDB :=
  (createAuthContext db sessionToken now, db)

/-- An inbound frame as seen by the ws.ts message listener: either its
payload parses as JSON to an envelope with an event field, or JSON.parse
throws. -/
inductive Frame where
  | wellFormed (event : String)
  | malformed
  deriving DecidableEq, Repr

/-- Observable outcome of one run of the message listener: the frames sent
back over this connection, and whether an exception escaped the listener. -/
structure WsMsgOutcome where
  sentFrames : List String
  threw : Bool
  deriving DecidableEq, Repr

/-- The ws.on message listener (src/src/lib/ws.ts lines 48 to 62).
JSON.parse on line 49 runs BEFORE the try block that begins on line 51:
when the payload is malformed the parse exception escapes the async
listener and no frame is sent.  Inside the try, a send_message dispatch
error is caught and answered with an error frame, and an unknown event
kind is answered with an Unknown event type frame. -/
def wsOnMessage (dispatchFails : Bool) (frame : Frame) : WsMsgOutcome :=
  match frame with
  | .malformed => { sentFrames := [], threw := true }
  | .wellFormed event =>
      if event == "send_message" then
        if dispatchFails then
          { sentFrames := ["error"], threw := false }
        else
          { sentFrames := [], threw := false }
      else
        { sentFrames := ["Unknown event type"], threw := false }

/-- Well-formedness of a persisted state, as guaranteed by the schema and
the id generator: server-generated ids are below the freshness counter,
and every participant row references an existing chat row (the foreign key
chat_participants.chat_id to chats). -/
structure DBwf (db : DB) : Prop where
  chatFresh : ∀ c ∈ db.chats, c.chatId < db.nextId
  partFresh : ∀ p ∈ db.participants, p.chatId < db.nextId
  msgFresh : ∀ m ∈ db.messages, m.messageId < db.nextId
  partChat : ∀ p ∈ db.participants, ∃ c ∈ db.chats, c.chatId = p.chatId

/-- The state produced by a committed createNewChat transaction: the fresh
chat row (id nextId) and one participant row per id are appended and the
id counter advances.  Abbreviation used to state lemmas about createChat. -/
def dbAfterCreate (db : DB) (creator : Nat) (name : Option String) (tnow : Nat)
    (pids : List Nat) : DB :=
  { db with
    chats := db.chats ++
      [{ chatId := db.nextId, creatorId := creator, name := name
         createdAt := tnow, lastActivity := tnow }]
    participants := db.participants ++
      pids.map
        (fun userId =>
          { chatId := db.nextId, userId := userId
            roles := if userId == creator then [Role.admin] else [Role.member]
            joinedAt := tnow, lastActivity := tnow })
    nextId := db.nextId + 1 }

/-- Whether the registry holds an OPEN handle for the user: the guard
client and client.readyState equal to 1 used by notifyParticipants
(src/src/api/chat/service.ts line 433). -/
def isOnline (clients : ClientMap) (p : Nat) : Bool :=
  match mapGet clients p with
  | some c => c.readyState == 1
  | none => false

/-- Whether the fan-out step for one participant would raise: the user has
a registered OPEN handle whose send throws. -/
def sendWouldRaise (env : SendEnv) (clients : ClientMap) (p : Nat) : Bool :=
  match mapGet clients p with
  | some c => (c.readyState == 1) && env.sendRaises c.handleId
  | none => false

/-- True when no send performed during a fan-out over pids raises: every
participant is either absent from the registry, or not OPEN, or has a
handle whose send succeeds. -/
def noSendRaises (env : SendEnv) (clients : ClientMap) (pids : List Nat) : Bool :=
  List.all pids (fun p => !(sendWouldRaise env clients p))

/-- Concrete state for the non-participant sender scenario: one chat with
participants 1 and 2. -/
def dbC1 : DB :=
  { chats := [{ chatId := 0, creatorId := 1, name := none, createdAt := 0, lastActivity := 0 }]
    participants :=
      [ { chatId := 0, userId := 1, roles := [Role.admin], joinedAt := 0, lastActivity := 0 }
      , { chatId := 0, userId := 2, roles := [Role.member], joinedAt := 0, lastActivity := 0 } ]
    messages := []
    attachments := []
    nextId := 1 }

/-- Benign oracle: no external failure of any kind. -/
def envC1 : SendMsgEnv :=
  { now := 5, uploadFails := fun _ => false, urlFails := fun _ => false
    randKey := fun _ => "k", sendRaises := fun _ => false, commitFails := false }

/-- Send request from user 3, who is not a participant of chat 0. -/
def reqC1 : SendMessageRequest :=
  { chatId := 0, senderId := 3, content := "hi", replyToMessageId := none, attachments := [] }

/-- Oracle in which the upload of the second attachment (index 1) throws. -/
def envC2 : SendMsgEnv :=
  { now := 7, uploadFails := fun i => i == 1, urlFails := fun _ => false
    randKey := fun _ => "r", sendRaises := fun _ => false, commitFails := false }

/-- Concrete state for the atomicity scenario: one chat with participants
1 and 2 and no messages. -/
def dbC2 : DB :=
  { chats := [{ chatId := 0, creatorId := 1, name := none, createdAt := 0, lastActivity := 0 }]
    participants :=
      [ { chatId := 0, userId := 1, roles := [Role.admin], joinedAt := 0, lastActivity := 0 }
      , { chatId := 0, userId := 2, roles := [Role.member], joinedAt := 0, lastActivity := 0 } ]
    messages := []
    attachments := []
    nextId := 100 }

/-- Message with two attachments, sent by participant 1. -/
def reqC2 : SendMessageRequest :=
  { chatId := 0, senderId := 1, content := "hello", replyToMessageId := none
    attachments :=
      [ { filename := "a.png", contentType := "image/png", data := "AAAA" }
      , { filename := "b.png", contentType := "image/png", data := "BBBB" } ] }

/-- Benign oracle for createChat runs. -/
def envC4 : CreateEnv :=
  { now := 3, sendRaises := fun _ => false, commitFails := false }

/-- Empty initial state for the createChat dedup scenario. -/
def dbC4 : DB :=
  { chats := [], participants := [], messages := [], attachments := [], nextId := 7 }

/-- Concrete state for the superset-match scenario: chat 10 has the three
participants 1, 2 and 3. -/
def db5 : DB :=
  { chats := [{ chatId := 10, creatorId := 1, name := none, createdAt := 0, lastActivity := 0 }]
    participants :=
      [ { chatId := 10, userId := 1, roles := [Role.admin], joinedAt := 0, lastActivity := 0 }
      , { chatId := 10, userId := 2, roles := [Role.member], joinedAt := 0, lastActivity := 0 }
      , { chatId := 10, userId := 3, roles := [Role.member], joinedAt := 0, lastActivity := 0 } ]
    messages := []
    attachments := []
    nextId := 11 }

/-- Concrete state for the unread-messages scenario: one message exists in
chat 0 but the caller has no participant row at all. -/
def dbC6 : DB :=
  { chats := [{ chatId := 0, creatorId := 1, name := none, createdAt := 0, lastActivity := 0 }]
    participants := []
    messages := [{ messageId := 1, chatId := 0, senderId := 1, textContent := some "x", createdAt := 5 }]
    attachments := []
    nextId := 50 }

/-- Concrete auth state: session 5 of user 1, expiring at time 10. -/
def dbC7 : AuthDB :=
  { sessions := [{ id := 5, userId := some 1, expiresAt := 10 }]
    users := [{ userId := 1, email := "a@b.c" }] }

/-- Registry with two OPEN connections, for users 1 and 2. -/
def clientsC8 : ClientMap :=
  [(1, { handleId := 11, readyState := 1 }), (2, { handleId := 12, readyState := 1 })]

/-- Oracle in which sends on handle 11 (user 1) raise. -/
def envC8 : SendEnv := ⟨fun h => h == 11⟩

/-- Some event payload for fan-out scenarios. -/
def payloadC8 : WsPayload := .chatCreated 0 1 none [1, 2] 0

/-- Registry with one OPEN connection for user 2 only; user 5 is offline. -/
def clientsC8b : ClientMap := [(2, { handleId := 12, readyState := 1 })]

/-- Oracle in which no send raises. -/
def envC8b : SendEnv := ⟨fun _ => false⟩

/-- Oracle for the broadcast-before-commit scenario: every external call
succeeds, but the transaction commit fails. -/
def envC9 : SendMsgEnv :=
  { now := 9, uploadFails := fun _ => false, urlFails := fun _ => false
    randKey := fun _ => "k", sendRaises := fun _ => false, commitFails := true }

/-- Concrete state for the broadcast-before-commit scenario: chat 0 with
participants 1 and 2, no messages yet. -/
def dbC9 : DB :=
  { chats := [{ chatId := 0, creatorId := 1, name := none, createdAt := 0, lastActivity := 0 }]
    participants :=
      [ { chatId := 0, userId := 1, roles := [Role.admin], joinedAt := 0, lastActivity := 0 }
      , { chatId := 0, userId := 2, roles := [Role.member], joinedAt := 0, lastActivity := 0 } ]
    messages := []
    attachments := []
    nextId := 40 }

/-- Registry for the broadcast-before-commit scenario: recipient 2 online. -/
def clientsC9 : ClientMap := [(2, { handleId := 21, readyState := 1 })]

/-- Plain text message from participant 1. -/
def reqC9 : SendMessageRequest :=
  { chatId := 0, senderId := 1, content := "hey", replyToMessageId := none, attachments := [] }

/-- C10: the close handler removes the registry entry keyed by user id
without checking that the stored handle is the closing connection.  After
register(u, h1); register(u, h2), the registry maps u to h2; running the
close handler captured by the FIRST connection (it deletes by u alone)
leaves lookup(u) empty although h2 was never closed, so a fan-out to u
afterwards delivers nothing. -/
theorem close_handler_drops_replacement_connection (u : Nat) (h1 h2 : WsClient) :
    mapGet (wsRegister (wsRegister mapEmpty u h1) u h2) u = some h2 ∧
    mapGet (wsOnClose (wsRegister (wsRegister mapEmpty u h1) u h2) u) u = none ∧
    (∀ env payload,
        notifyParticipants env (wsOnClose (wsRegister (wsRegister mapEmpty u h1) u h2) u)
            [u] payload = ([], false)) := by
  refine ⟨?_, ?_, ?_⟩ <;>
    simp [wsRegister, wsOnClose, mapSet, mapDelete, mapGet, mapEmpty, notifyParticipants]

/-- C3: a malformed inbound frame does NOT get a structured error frame.
JSON.parse on line 49 of src/src/lib/ws.ts runs before the try block, so
the parse exception escapes the listener: no frame is sent back and the
handler run ends in an uncaught exception, contrary to the claim. -/
theorem malformed_frame_uncaught (d : Bool) :
    wsOnMessage d Frame.malformed = { sentFrames := [], threw := true } := rfl

/-- C1: a sendMessage call by a non-participant (user 3 of a chat whose
participants are 1 and 2) persists nothing, but the error the caller sees
is INTERNAL_SERVER_ERROR Failed to send message, not FORBIDDEN: the
FORBIDDEN error thrown at line 220 is swallowed by the catch-all at lines
293 to 296 of src/src/api/chat/service.ts. -/
theorem sendMessage_nonparticipant_wrapped_error :
    sendMessage envC1 [] dbC1 reqC1
      = { db := dbC1, sent := []
          result := .error
            { code := .internalServerError, message := "Failed to send message." } } := rfl

/-- C5: the part_006 findExistingChat matches a chat whose participant set
strictly contains the query: chat 10 has participants 1, 2 and 3, yet the
query for exactly the set containing 1 and 2 returns it, because the
aggregated ids it compares against the query are pre-filtered to the query
set, making the Set equality check vacuous. -/
theorem findExistingChatB_matches_superset :
    Option.map (fun c : ChatView2 => c.chatId) (findExistingChatB db5 [1, 2]) = some 10 ∧
    fetchParticipants db5 10 = [1, 2, 3] := ⟨rfl, rfl⟩

/-- C8 counterexample: with users 1 and 2 both registered and OPEN, a
raising send on the handle of user 1 aborts the forEach loop of
notifyParticipants: user 2, although online with a working handle, is not
sent the event, contrary to the claim that every remaining online
participant is still sent it. -/
theorem notifyParticipants_raise_aborts_loop :
    notifyParticipants envC8 clientsC8 [1, 2] payloadC8 = ([], true) := rfl

/-- When no send raises, the fan-out loop completes: it delivers the event
to exactly the online participants, in order, and skips the others. -/
theorem notify_noraise (env : SendEnv) (clients : ClientMap) (pids : List Nat)
    (payload : WsPayload) (h : noSendRaises env clients pids = true) :
    notifyParticipants env clients pids payload
      = ((List.filter (isOnline clients) pids).map (fun p => (p, payload)), false) := by
  induction pids with
  | nil => rfl
  | cons p rest ih =>
    simp only [noSendRaises, List.all_cons, Bool.and_eq_true] at h
    obtain ⟨hp, hrest⟩ := h
    have ihh := ih hrest
    cases hg : mapGet clients p with
    | none =>
        simp only [notifyParticipants, hg, List.filter_cons, isOnline]
        simp [ihh]
    | some c =>
        cases hrs : (c.readyState == 1) with
        | false =>
            simp only [notifyParticipants, hg, hrs, List.filter_cons, isOnline]
            simp [ihh]
        | true =>
            simp [sendWouldRaise, hg, hrs] at hp
            simp only [notifyParticipants, hg, hrs, hp, List.filter_cons, isOnline]
            simp [ihh]

/-- C8 amended: a participant with no registry entry, or with a non-OPEN
handle, is skipped as a no-op and never raises; when no send raises, every
online participant is delivered the event.  But the forEach body has no
per-recipient error handling: a raising send aborts the loop at once, so
no participant after the raising one is sent the event. -/
theorem notifyParticipants_skip_and_abort :
    (∀ env clients pids payload, noSendRaises env clients pids = true →
        notifyParticipants env clients pids payload
          = ((List.filter (isOnline clients) pids).map (fun p => (p, payload)), false)) ∧
    (∀ env clients p rest payload c, mapGet clients p = some c → c.readyState = 1 →
        env.sendRaises c.handleId = true →
        notifyParticipants env clients (p :: rest) payload = ([], true)) := by
  constructor
  · exact fun env clients pids payload h => notify_noraise env clients pids payload h
  · intro env clients p rest payload c hg hr hs
    simp [notifyParticipants, hg, hr, hs]

/-- Witness for the C8 theorem: user 5 is offline and skipped without
raising, user 2 is online and receives the event; nothing raises. -/
theorem notifyParticipants_skip_and_abort_witness :
    notifyParticipants envC8b clientsC8b [5, 2] payloadC8 = ([(2, payloadC8)], false) := by
  have h := notifyParticipants_skip_and_abort.1 envC8b clientsC8b [5, 2] payloadC8 rfl
  exact h.trans (by rfl)

/-- Every run of sendMessage either leaves the transactional tables exactly
as they were or returns a message: the participant check is read-only and
all writes happen inside the one transaction. -/
theorem sendMessage_db_cases (env : SendMsgEnv) (clients : ClientMap) (db : DB)
    (req : SendMessageRequest) :
    (sendMessage env clients db req).db = db ∨
      ∃ m, (sendMessage env clients db req).result = .ok m := by
  simp only [sendMessage]
  split
  · exact .inl rfl
  · split
    · exact .inl rfl
    · split
      · exact .inl rfl
      · split
        · exact .inl rfl
        · exact .inr ⟨_, rfl⟩

/-- C2: sendMessage is atomic over the persisted tables: whenever any step
of the call fails (participant check, message insert, an attachment upload,
an attachment row insert, URL resolution, the broadcast, or the commit),
the final state equals the initial state: no message row, no attachment
rows, and an unchanged chats table (hence unchanged lastActivity). -/
theorem sendMessage_rolls_back_on_error (env : SendMsgEnv) (clients : ClientMap)
    (db : DB) (req : SendMessageRequest) (e : AppError)
    (h : (sendMessage env clients db req).result = .error e) :
    (sendMessage env clients db req).db = db := by
  rcases sendMessage_db_cases env clients db req with hdb | ⟨m, hm⟩
  · exact hdb
  · rw [h] at hm
    simp at hm

/-- Witness for the C2 theorem: a message with 2 attachments whose second
upload throws ends in an error and leaves the state untouched. -/
theorem sendMessage_rolls_back_on_error_witness :
    (sendMessage envC2 [] dbC2 reqC2).result
        = .error { code := .internalServerError, message := "Failed to send message." } ∧
    (sendMessage envC2 [] dbC2 reqC2).db = dbC2 :=
  ⟨rfl, sendMessage_rolls_back_on_error envC2 [] dbC2 reqC2 _ rfl⟩

/-- C6: fetchMessages in unreadOnly mode is fail-safe.  When the caller has
no participant row for the chat (the lastActivity marker column is NOT
NULL, so a missing row is the only no-marker case) the result is the empty
list, never the full message list; when a row exists, the returned message
ids are exactly those of the chats messages whose createdAt is strictly
greater than the callers lastActivity marker. -/
theorem fetchMessages_unread_spec (db : DB) (chatId userId : Nat) :
    ((∀ r ∈ db.participants, ¬(r.chatId = chatId ∧ r.userId = userId)) →
        fetchMessagesP6 db chatId userId true false = []) ∧
    (∀ prow,
        List.find? (fun r : ParticipantRow => r.chatId == chatId && r.userId == userId)
            db.participants = some prow →
        List.map (fun m : MappedMessage2 => m.messageId)
            (fetchMessagesP6 db chatId userId true false)
          = List.map (fun m : MessageRow => m.messageId)
              (List.filter
                (fun m : MessageRow =>
                  m.chatId == chatId && decide (prow.lastActivity < m.createdAt))
                db.messages)) := by
  constructor
  · intro h
    have hnone :
        List.find? (fun r : ParticipantRow => r.chatId == chatId && r.userId == userId)
            db.participants = none := by
      rw [List.find?_eq_none]
      intro r hr
      simpa using h r hr
    simp [fetchMessagesP6, hnone]
  · intro prow hp
    simp [fetchMessagesP6, hp, List.map_map]

/-- Witness for the C6 theorem: a chat with one message and a caller with
no participant row receives the empty list. -/
theorem fetchMessages_unread_spec_witness :
    fetchMessagesP6 dbC6 0 2 true false = [] :=
  (fetchMessages_unread_spec dbC6 0 2).1 (by simp [dbC6])

/-- Each join row produced by the createAuthContext select comes from a
persisted session whose id equals the token and which is unexpired, paired
with the user row it references. -/
theorem mem_authJoinRows (db : AuthDB) (token now : Nat) (p : SessionRow × UserRow)
    (hp : p ∈ authJoinRows db token now) :
    p.1 ∈ db.sessions ∧ p.1.id = token ∧ now < p.1.expiresAt ∧
      p.2 ∈ db.users ∧ p.1.userId = some p.2.userId := by
  simp only [authJoinRows, List.mem_flatten, List.mem_map] at hp
  obtain ⟨l, ⟨s, hs, rfl⟩, hpl⟩ := hp
  simp only [List.mem_filterMap] at hpl
  obtain ⟨u, hu, hcond⟩ := hpl
  by_cases hc :
      (s.id == token && decide (now < s.expiresAt) && s.userId == some u.userId) = true
  · rw [if_pos hc] at hcond
    cases hcond
    simp only [Bool.and_eq_true, beq_iff_eq, decide_eq_true_eq] at hc
    exact ⟨hs, hc.1.1, hc.1.2, hu, hc.2⟩
  · rw [if_neg hc] at hcond
    cases hcond

/-- A matching unexpired session together with the user row it references
yields a join row. -/
theorem authJoinRows_mem_intro (db : AuthDB) (token now : Nat) (s : SessionRow)
    (u : UserRow) (hs : s ∈ db.sessions) (hu : u ∈ db.users) (hid : s.id = token)
    (hexp : now < s.expiresAt) (huu : s.userId = some u.userId) :
    (s, u) ∈ authJoinRows db token now := by
  simp only [authJoinRows, List.mem_flatten, List.mem_map]
  refine ⟨_, ⟨s, hs, rfl⟩, ?_⟩
  simp only [List.mem_filterMap]
  exact ⟨u, hu, by simp [hid, hexp, huu]⟩

/-- C7: createAuthContext succeeds with a matching sessions id and its
users id exactly when some persisted session has the token as id and an
expiresAt strictly greater than the current time (under the schema
invariants that sessions carry an owner and reference existing users);
every other token fails with UNAUTHORIZED Invalid session; and in all
cases the persisted state is returned unchanged (the handler is a single
select). -/
theorem createAuthContext_spec (db : AuthDB) (token now : Nat)
    (hown : ∀ s ∈ db.sessions, s.userId.isSome)
    (hfk : ∀ s ∈ db.sessions, ∀ uid, s.userId = some uid →
        ∃ u ∈ db.users, u.userId = uid) :
    ((¬ ∃ s ∈ db.sessions, s.id = token ∧ now < s.expiresAt) →
        createAuthContext db token now = .error ⟨.unauthorized, "Invalid session"⟩) ∧
    ((∃ s ∈ db.sessions, s.id = token ∧ now < s.expiresAt) →
        ∃ s ∈ db.sessions, ∃ u ∈ db.users, s.id = token ∧ now < s.expiresAt ∧
          s.userId = some u.userId ∧
          createAuthContext db token now = .ok ⟨s.id, u.userId, u.email⟩) ∧
    (createAuthContextS db token now).2 = db := by
  refine ⟨?_, ?_, rfl⟩
  · intro hno
    have hnil : authJoinRows db token now = [] := by
      cases hl : authJoinRows db token now with
      | nil => rfl
      | cons p t =>
          exfalso
          have hp : p ∈ authJoinRows db token now := by
            rw [hl]; exact List.mem_cons_self _ _
          obtain ⟨hs, hid, hexp, _, _⟩ := mem_authJoinRows db token now p hp
          exact hno ⟨p.1, hs, hid, hexp⟩
    simp [createAuthContext, hnil]
  · rintro ⟨s, hs, hid, hexp⟩
    obtain ⟨uid, huid⟩ := Option.isSome_iff_exists.mp (hown s hs)
    obtain ⟨u, hu, huu⟩ := hfk s hs uid huid
    have hmem : (s, u) ∈ authJoinRows db token now :=
      authJoinRows_mem_intro db token now s u hs hu hid hexp (by rw [huid, huu])
    cases hl : authJoinRows db token now with
    | nil => rw [hl] at hmem; cases hmem
    | cons p t =>
        have hp : p ∈ authJoinRows db token now := by
          rw [hl]; exact List.mem_cons_self _ _
        obtain ⟨hps, hpid, hpexp, hpu, hpuu⟩ := mem_authJoinRows db token now p hp
        refine ⟨p.1, hps, p.2, hpu, hpid, hpexp, hpuu, ?_⟩
        simp [createAuthContext, hl]

/-- Witness for the C7 theorem: token 5 at time 3 matches the session
expiring at 10 and authenticates as user 1. -/
theorem createAuthContext_spec_witness :
    ∃ s ∈ dbC7.sessions, ∃ u ∈ dbC7.users, s.id = 5 ∧ 3 < s.expiresAt ∧
      s.userId = some u.userId ∧
      createAuthContext dbC7 5 3 = .ok ⟨s.id, u.userId, u.email⟩ :=
  (createAuthContext_spec dbC7 5 3
      (by intro s hs; simp [dbC7] at hs; subst hs; rfl)
      (by
        intro s hs uid h
        simp [dbC7] at hs
        subst hs
        simp at h
        exact ⟨⟨1, "a@b.c"⟩, by simp [dbC7], by simp [h]⟩)).2.1
    ⟨⟨5, some 1, 10⟩, by simp [dbC7], rfl, by decide⟩

/-- With no upload failure and no URL failure, the attachment loop
succeeds. -/
theorem attachLoop_ok (env : SendMsgEnv) (messageId : Nat)
    (hup : ∀ j, env.uploadFails j = false) (hurl : ∀ j, env.urlFails j = false) :
    ∀ (atts : List AttachmentPayload) (i : Nat) (db : DB),
      ∃ pr, attachLoop env messageId atts i db = .ok pr := by
  intro atts
  induction atts with
  | nil => exact fun i db => ⟨_, rfl⟩
  | cons a rest ih =>
      intro i db
      obtain ⟨pr, hpr⟩ :=
        ih (i + 1)
          { db with
            attachments := db.attachments ++
              [{ attachmentId := db.nextId, messageId := messageId
                 fileName := a.filename, fileSize := a.data.length
                 mimeType := a.contentType
                 storagePath := toString messageId ++ "/" ++ env.randKey i
                 uploadedAt := env.now }]
            nextId := db.nextId + 1 }
      simp only [attachLoop, uploadAttachment, hup, hurl, Bool.false_eq_true, if_false]
      rw [hpr]
      exact ⟨_, rfl⟩

/-- C9: the new_message fan-out runs inside the still-open transaction,
before the commit.  When every step up to and including the broadcast
succeeds but the commit then fails, the call returns an error and the
state is rolled back (the fresh message id appears in no persisted row),
yet the online recipient has already been sent a new_message event
carrying exactly that never-persisted message id. -/
theorem sendMessage_broadcast_before_commit (env : SendMsgEnv) (clients : ClientMap)
    (db : DB) (req : SendMessageRequest) (recip : Nat) (c : WsClient)
    (hwf : DBwf db)
    (hsender : 0 < (List.filter
        (fun r : ParticipantRow => r.chatId == req.chatId && r.userId == req.senderId)
        db.participants).length)
    (hup : ∀ j, env.uploadFails j = false) (hurl : ∀ j, env.urlFails j = false)
    (hns : noSendRaises ⟨env.sendRaises⟩ clients (getParticipants db req.chatId) = true)
    (hrec : recip ∈ getParticipants db req.chatId)
    (hcli : mapGet clients recip = some c) (hopen : c.readyState = 1)
    (hcommit : env.commitFails = true) :
    (∃ e, (sendMessage env clients db req).result = .error e) ∧
    (sendMessage env clients db req).db = db ∧
    (∀ m ∈ (sendMessage env clients db req).db.messages, m.messageId ≠ db.nextId) ∧
    (∃ mm : MappedMessage, mm.messageId = db.nextId ∧
        (recip, WsPayload.newMessage mm) ∈ (sendMessage env clients db req).sent) := by
  obtain ⟨pr, hpr⟩ :=
    attachLoop_ok env db.nextId hup hurl req.attachments 0
      { db with
        messages := db.messages ++
          [{ messageId := db.nextId, chatId := req.chatId, senderId := req.senderId
             textContent := some req.content, createdAt := env.now }]
        nextId := db.nextId + 1 }
  have hlen :
      ((List.filter
          (fun r : ParticipantRow => r.chatId == req.chatId && r.userId == req.senderId)
          db.participants).length == 0) = false := by
    simp only [beq_eq_false_iff_ne]
    exact Nat.pos_iff_ne_zero.mp hsender
  have hnotify :=
    notify_noraise ⟨env.sendRaises⟩ clients (getParticipants db req.chatId)
      (WsPayload.newMessage
        { messageId := db.nextId, chatId := req.chatId, senderId := req.senderId
          content := req.content, userId := req.senderId
          textContent := some req.content, attachments := pr.2 }) hns
  have hkey : sendMessage env clients db req =
      { db := db
        sent :=
          (List.filter (isOnline clients) (getParticipants db req.chatId)).map
            (fun p =>
              (p, WsPayload.newMessage
                { messageId := db.nextId, chatId := req.chatId, senderId := req.senderId
                  content := req.content, userId := req.senderId
                  textContent := some req.content, attachments := pr.2 }))
        result := .error ⟨.internalServerError, "Failed to send message."⟩ } := by
    simp only [sendMessage, hlen, Bool.false_eq_true, if_false]
    rw [hpr]
    simp only [hnotify, Bool.false_eq_true, if_false, hcommit, if_true]
    rfl
  refine ⟨⟨⟨.internalServerError, "Failed to send message."⟩, by rw [hkey]⟩,
      by rw [hkey], ?_, ?_⟩
  · rw [hkey]
    intro m hm
    exact Nat.ne_of_lt (hwf.msgFresh m hm)
  · refine
      ⟨{ messageId := db.nextId, chatId := req.chatId, senderId := req.senderId
         content := req.content, userId := req.senderId
         textContent := some req.content, attachments := pr.2 }, rfl, ?_⟩
    rw [hkey]
    exact List.mem_map.mpr
      ⟨recip, List.mem_filter.mpr ⟨hrec, by simp [isOnline, hcli, hopen]⟩, rfl⟩

/-- Witness for the C9 theorem: with the commit failing, recipient 2 is
sent a new_message event for message id 40 although no such message row
exists afterwards. -/
theorem sendMessage_broadcast_before_commit_witness :
    (∃ e, (sendMessage envC9 clientsC9 dbC9 reqC9).result = .error e) ∧
    (sendMessage envC9 clientsC9 dbC9 reqC9).db = dbC9 ∧
    (∀ m ∈ (sendMessage envC9 clientsC9 dbC9 reqC9).db.messages,
        m.messageId ≠ dbC9.nextId) ∧
    (∃ mm : MappedMessage, mm.messageId = dbC9.nextId ∧
        (2, WsPayload.newMessage mm) ∈ (sendMessage envC9 clientsC9 dbC9 reqC9).sent) :=
  sendMessage_broadcast_before_commit envC9 clientsC9 dbC9 reqC9 2 ⟨21, 1⟩
    ⟨by decide, by decide, by decide, by decide⟩ (by decide)
    (fun _ => rfl) (fun _ => rfl) rfl (by decide) rfl rfl rfl

/-- Membership in the dedup worker: an element survives when it occurs in
the input and was not already seen. -/
theorem mem_jsDedupAux (x : Nat) :
    ∀ (l seen : List Nat), x ∈ jsDedupAux seen l ↔ x ∈ l ∧ x ∉ seen := by
  intro l
  induction l with
  | nil => intro seen; simp [jsDedupAux]
  | cons y ys ih =>
      intro seen
      by_cases hy : seen.contains y = true
      · have hmem : y ∈ seen := List.elem_iff.mp hy
        simp only [jsDedupAux, hy, if_true]
        rw [ih seen]
        constructor
        · rintro ⟨h1, h2⟩
          exact ⟨List.mem_cons_of_mem _ h1, h2⟩
        · rintro ⟨h1, h2⟩
          rcases List.mem_cons.mp h1 with rfl | h1
          · exact absurd hmem h2
          · exact ⟨h1, h2⟩
      · have hnmem : y ∉ seen := fun hc => hy (List.elem_iff.mpr hc)
        simp only [jsDedupAux, hy, Bool.false_eq_true, if_false, List.mem_cons]
        rw [ih (y :: seen)]
        constructor
        · rintro (rfl | ⟨h1, h2⟩)
          · exact ⟨Or.inl rfl, hnmem⟩
          · exact ⟨Or.inr h1, fun hc => h2 (List.mem_cons_of_mem _ hc)⟩
        · rintro ⟨rfl | h1, h2⟩
          · exact Or.inl rfl
          · by_cases hxy : x = y
            · exact Or.inl hxy
            · exact Or.inr ⟨h1, by simp [List.mem_cons, hxy, h2]⟩

/-- jsDedup preserves membership. -/
theorem mem_jsDedup (x : Nat) (l : List Nat) : x ∈ jsDedup l ↔ x ∈ l := by
  rw [jsDedup, mem_jsDedupAux]
  simp

/-- The dedup worker never repeats an element. -/
theorem nodup_jsDedupAux : ∀ (l seen : List Nat), (jsDedupAux seen l).Nodup := by
  intro l
  induction l with
  | nil => intro seen; simp [jsDedupAux]
  | cons y ys ih =>
      intro seen
      by_cases hy : seen.contains y = true
      · simp only [jsDedupAux, hy, if_true]
        exact ih seen
      · simp only [jsDedupAux, hy, Bool.false_eq_true, if_false]
        refine List.nodup_cons.mpr ⟨?_, ih (y :: seen)⟩
        intro hmem
        exact ((mem_jsDedupAux y ys (y :: seen)).mp hmem).2 (List.mem_cons_self y seen)

/-- jsDedup output has no duplicates. -/
theorem nodup_jsDedup (l : List Nat) : (jsDedup l).Nodup := nodup_jsDedupAux l []

/-- Two duplicate-free lists with the same members have the same length. -/
theorem nodup_length_eq (l1 l2 : List Nat) (h1 : l1.Nodup) (h2 : l2.Nodup)
    (h : ∀ x, x ∈ l1 ↔ x ∈ l2) : l1.length = l2.length := by
  rw [← List.toFinset_card_of_nodup h1, ← List.toFinset_card_of_nodup h2]
  have : l1.toFinset = l2.toFinset := Finset.ext (fun x => by simp [h x])
  rw [this]

/-- Every createNewChat run either rolls back (leaving the state as it
was) with an error, or commits the appended chat and participant rows. -/
theorem createNewChat_cases (env : CreateEnv) (cl : ClientMap) (db : DB)
    (creator : Nat) (name : Option String) (pids : List Nat) :
    ((∃ e, (createNewChat env cl db creator name pids).result = .error e) ∧
       (createNewChat env cl db creator name pids).db = db) ∨
    ((∃ v, (createNewChat env cl db creator name pids).result = .ok v) ∧
     (createNewChat env cl db creator name pids).db =
       dbAfterCreate db creator name env.now pids) := by
  simp only [createNewChat]
  split
  · exact .inl ⟨⟨_, rfl⟩, rfl⟩
  · split
    · exact .inl ⟨⟨_, rfl⟩, rfl⟩
    · exact .inr ⟨⟨_, rfl⟩, rfl⟩

/-- Every createChat run either throws, or commits exactly one fresh chat
row (with id nextId) plus one participant row per deduplicated id after
having found no existing chat for that set. -/
theorem createChat_cases (env : CreateEnv) (cl : ClientMap) (db : DB)
    (creator : Nat) (ps : List Nat) (name : Option String) :
    (∃ e, (createChat env cl db creator ps name).result = .error e) ∨
    (2 ≤ (jsDedup (creator :: ps)).length ∧
     findExistingChatA db (jsDedup (creator :: ps)) = none ∧
     (createChat env cl db creator ps name).db =
       dbAfterCreate db creator name env.now (jsDedup (creator :: ps))) := by
  simp only [createChat]
  split
  · exact .inl ⟨_, rfl⟩
  next hlt =>
    split
    next v heq => exact .inl ⟨_, rfl⟩
    next heq =>
      rcases createNewChat_cases env cl db creator name (jsDedup (creator :: ps)) with
        ⟨⟨e, he⟩, hdb⟩ | ⟨⟨v, hv⟩, hdb⟩
      · refine .inl ⟨⟨.badRequest, "Failed to create chat."⟩, ?_⟩
        show ((createNewChat env cl db creator name
            (jsDedup (creator :: ps))).result.mapError _) = _
        rw [he]
        rfl
      · exact .inr ⟨by omega, heq, hdb⟩

/-- The candidate loop returns a chat whenever some candidate passes the
verification and every candidate references an existing chat row. -/
theorem findLoopA_isSome (db : DB) (query : List Nat) :
    ∀ L : List (Nat × Nat),
      (∀ g ∈ L, ∃ cr ∈ db.chats, cr.chatId = g.1) →
      (∃ g ∈ L, ((getParticipants db g.1).length == query.length
          && List.all (getParticipants db g.1) (fun id => query.contains id)) = true) →
      (findLoopA db query L).isSome := by
  intro L
  induction L with
  | nil =>
      rintro _ ⟨g, hg, _⟩
      cases hg
  | cons g t ih =>
      obtain ⟨cid, cnt⟩ := g
      intro hchat hex
      by_cases hv : ((getParticipants db cid).length == query.length
          && List.all (getParticipants db cid) (fun id => query.contains id)) = true
      · obtain ⟨cr, hcr, hcrid⟩ := hchat (cid, cnt) (List.mem_cons_self _ _)
        have hfind : (List.find? (fun c : ChatRow => c.chatId == cid) db.chats).isSome :=
          List.find?_isSome.mpr ⟨cr, hcr, by simp [hcrid]⟩
        obtain ⟨cv, hcv⟩ := Option.isSome_iff_exists.mp hfind
        simp only [findLoopA]
        rw [if_pos hv]
        simp [fetchChatDetails, hcv]
      · obtain ⟨g2, hg2, hv2⟩ := hex
        rcases List.mem_cons.mp hg2 with heq2 | hg2t
        · rw [heq2] at hv2
          exact absurd hv2 hv
        · have hrec := ih (fun x hx => hchat x (List.mem_cons_of_mem _ hx)) ⟨g2, hg2t, hv2⟩
          simp only [findLoopA]
          rw [if_neg hv]
          exact hrec

/-- The participant list of the freshly created chat is exactly the id
list it was created with: older rows have smaller chat ids. -/
theorem getParticipants_dbAfterCreate (db : DB) (hwf : DBwf db) (creator : Nat)
    (name : Option String) (tnow : Nat) (pids : List Nat) :
    getParticipants (dbAfterCreate db creator name tnow pids) db.nextId = pids := by
  simp only [getParticipants, dbAfterCreate, List.filter_append]
  have hold : List.filter (fun r : ParticipantRow => r.chatId == db.nextId)
      db.participants = [] := by
    refine List.filter_eq_nil_iff.mpr (fun r hr => ?_)
    have hlt := hwf.partFresh r hr
    simp only [beq_iff_eq]
    omega
  have hnewf : List.filter (fun r : ParticipantRow => r.chatId == db.nextId)
      (pids.map
        (fun userId =>
          { chatId := db.nextId, userId := userId
            roles := if userId == creator then [Role.admin] else [Role.member]
            joinedAt := tnow, lastActivity := tnow })) =
      pids.map
        (fun userId =>
          { chatId := db.nextId, userId := userId
            roles := if userId == creator then [Role.admin] else [Role.member]
            joinedAt := tnow, lastActivity := tnow }) := by
    refine List.filter_eq_self.mpr (fun r hr => ?_)
    obtain ⟨uid, hu, rfl⟩ := List.mem_map.mp hr
    simp
  rw [hold, hnewf, List.nil_append, List.map_map]
  show List.map (fun u : Nat => u) pids = pids
  simp

/-- After a commit of createNewChat for the id set pids, findExistingChatA
finds a chat for every query that denotes the same set: the fresh chat is
a candidate (its row count over the query equals the query size) and
passes the exact-set verification, and every candidate references a chat
row, so the scan returns one. -/
theorem findExistingChatA_finds_fresh (db : DB) (hwf : DBwf db) (creator : Nat)
    (name : Option String) (tnow : Nat) (pids query : List Nat)
    (hpn : pids.Nodup) (hqn : query.Nodup) (hpos : 0 < pids.length)
    (hset : ∀ x, x ∈ pids ↔ x ∈ query) :
    (findExistingChatA (dbAfterCreate db creator name tnow pids) query).isSome := by
  have hqlen : pids.length = query.length := nodup_length_eq pids query hpn hqn hset
  have hparts := getParticipants_dbAfterCreate db hwf creator name tnow pids
  -- the new rows all pass the userId-in-query filter
  have hfilterNew : List.filter (fun r : ParticipantRow => query.contains r.userId)
      (pids.map
        (fun userId =>
          { chatId := db.nextId, userId := userId
            roles := if userId == creator then [Role.admin] else [Role.member]
            joinedAt := tnow, lastActivity := tnow })) =
      pids.map
        (fun userId =>
          { chatId := db.nextId, userId := userId
            roles := if userId == creator then [Role.admin] else [Role.member]
            joinedAt := tnow, lastActivity := tnow }) := by
    refine List.filter_eq_self.mpr (fun r hr => ?_)
    obtain ⟨uid, hu, rfl⟩ := List.mem_map.mp hr
    simpa using List.elem_iff.mpr ((hset uid).mp hu)
  -- among the filtered rows, those of the fresh chat are exactly the new rows
  have hcount : (List.filter (fun r : ParticipantRow => r.chatId == db.nextId)
      (List.filter (fun r : ParticipantRow => query.contains r.userId)
        (dbAfterCreate db creator name tnow pids).participants)).length
      = query.length := by
    simp only [dbAfterCreate, List.filter_append, hfilterNew]
    have hold : List.filter (fun r : ParticipantRow => r.chatId == db.nextId)
        (List.filter (fun r : ParticipantRow => query.contains r.userId)
          db.participants) = [] := by
      refine List.filter_eq_nil_iff.mpr (fun r hr => ?_)
      have hlt := hwf.partFresh r (List.mem_filter.mp hr).1
      simp only [beq_iff_eq]
      omega
    have hnewf : List.filter (fun r : ParticipantRow => r.chatId == db.nextId)
        (pids.map
          (fun userId =>
            { chatId := db.nextId, userId := userId
              roles := if userId == creator then [Role.admin] else [Role.member]
              joinedAt := tnow, lastActivity := tnow })) =
        pids.map
          (fun userId =>
            { chatId := db.nextId, userId := userId
              roles := if userId == creator then [Role.admin] else [Role.member]
              joinedAt := tnow, lastActivity := tnow }) := by
      refine List.filter_eq_self.mpr (fun r hr => ?_)
      obtain ⟨uid, hu, rfl⟩ := List.mem_map.mp hr
      simp
    rw [hold, hnewf, List.nil_append, List.length_map]
    exact hqlen
  -- the fresh chat id is among the grouped candidate chat ids
  have hcid : db.nextId ∈ jsDedup (List.map (fun r : ParticipantRow => r.chatId)
      (List.filter (fun r : ParticipantRow => query.contains r.userId)
        (dbAfterCreate db creator name tnow pids).participants)) := by
    rw [mem_jsDedup]
    rcases pids with _ | ⟨u0, rest⟩
    · simp at hpos
    · refine List.mem_map.mpr ?_
      refine ⟨{ chatId := db.nextId, userId := u0
                roles := if u0 == creator then [Role.admin] else [Role.member]
                joinedAt := tnow, lastActivity := tnow }, ?_, rfl⟩
      refine List.mem_filter.mpr ⟨?_, ?_⟩
      · simp only [dbAfterCreate]
        refine List.mem_append_right _ ?_
        exact List.mem_map.mpr ⟨u0, List.mem_cons_self _ _, rfl⟩
      · simpa using List.elem_iff.mpr ((hset u0).mp (List.mem_cons_self _ _))
  -- assemble via the candidate loop
  simp only [findExistingChatA]
  apply findLoopA_isSome
  · -- every candidate chat id references a chat row
    intro g hg
    obtain ⟨hgmap, _⟩ := List.mem_filter.mp hg
    obtain ⟨cid, hcidmem, rfl⟩ := List.mem_map.mp hgmap
    rw [mem_jsDedup] at hcidmem
    obtain ⟨r, hrf, hrc⟩ := List.mem_map.mp hcidmem
    have hrp : r ∈ (dbAfterCreate db creator name tnow pids).participants :=
      (List.mem_filter.mp hrf).1
    simp only [dbAfterCreate] at hrp
    rcases List.mem_append.mp hrp with hrold | hrnew
    · obtain ⟨cr, hcr, hcrid⟩ := hwf.partChat r hrold
      refine ⟨cr, ?_, by rw [hcrid, hrc]⟩
      simp only [dbAfterCreate]
      exact List.mem_append_left _ hcr
    · obtain ⟨uid, hu, rfl⟩ := List.mem_map.mp hrnew
      refine ⟨{ chatId := db.nextId, creatorId := creator, name := name
                createdAt := tnow, lastActivity := tnow }, ?_, ?_⟩
      · simp only [dbAfterCreate]
        exact List.mem_append_right _ (List.mem_cons_self _ _)
      · simpa using hrc
  · -- the fresh chat is a passing candidate
    refine ⟨(db.nextId,
        (List.filter (fun r : ParticipantRow => r.chatId == db.nextId)
          (List.filter (fun r : ParticipantRow => query.contains r.userId)
            (dbAfterCreate db creator name tnow pids).participants)).length), ?_, ?_⟩
    · refine List.mem_filter.mpr ⟨List.mem_map.mpr ⟨db.nextId, hcid, rfl⟩, ?_⟩
      exact beq_iff_eq.mpr hcount
    · simp only [hparts]
      refine Bool.and_intro ?_ ?_
      · exact beq_iff_eq.mpr hqlen
      · refine List.all_eq_true.mpr (fun id hid => ?_)
        exact List.elem_iff.mpr ((hset id).mp hid)

/-- C4 amended: for two sequential createChat calls whose deduplicated
participant sets are equal (in any order), if the first call succeeds then
the second call does NOT create a second chat: findExistingChat matches
the first chat and createChat throws (the source throws Chat already
exists, wrapped to BAD_REQUEST Failed to create chat by the catch) and
leaves the state unchanged, rather than resolving to the first chat id. -/
theorem createChat_second_call_rejected (env1 env2 : CreateEnv) (cl1 cl2 : ClientMap)
    (db0 : DB) (creator1 creator2 : Nat) (ps1 ps2 : List Nat)
    (name1 name2 : Option String) (c1 : ChatView)
    (hwf : DBwf db0)
    (hset : ∀ x, x ∈ jsDedup (creator1 :: ps1) ↔ x ∈ jsDedup (creator2 :: ps2))
    (hok : (createChat env1 cl1 db0 creator1 ps1 name1).result = .ok c1) :
    (createChat env2 cl2 (createChat env1 cl1 db0 creator1 ps1 name1).db
        creator2 ps2 name2).result = .error ⟨.badRequest, "Failed to create chat."⟩ ∧
    (createChat env2 cl2 (createChat env1 cl1 db0 creator1 ps1 name1).db
        creator2 ps2 name2).db = (createChat env1 cl1 db0 creator1 ps1 name1).db := by
  rcases createChat_cases env1 cl1 db0 creator1 ps1 name1 with ⟨e, he⟩ | ⟨hlen, _, hdb⟩
  · rw [hok] at he
    simp at he
  · have hpn := nodup_jsDedup (creator1 :: ps1)
    have hqn := nodup_jsDedup (creator2 :: ps2)
    have hlen2 : 2 ≤ (jsDedup (creator2 :: ps2)).length := by
      rw [← nodup_length_eq _ _ hpn hqn hset]
      exact hlen
    have hfind := findExistingChatA_finds_fresh db0 hwf creator1 name1 env1.now
      (jsDedup (creator1 :: ps1)) (jsDedup (creator2 :: ps2)) hpn hqn (by omega) hset
    obtain ⟨v, hv⟩ := Option.isSome_iff_exists.mp hfind
    have key : createChat env2 cl2
        (dbAfterCreate db0 creator1 name1 env1.now (jsDedup (creator1 :: ps1)))
        creator2 ps2 name2
        = { db := dbAfterCreate db0 creator1 name1 env1.now (jsDedup (creator1 :: ps1))
            sent := []
            result := .error ⟨.badRequest, "Failed to create chat."⟩ } := by
      simp only [createChat]
      rw [if_neg (by omega), hv]
    rw [hdb, key]
    exact ⟨rfl, rfl⟩

/-- C4 counterexample: on an empty state, createChat(1, [2]) succeeds and
creates chat 7; the second call createChat(2, [1]) with the same
deduplicated participant set in swapped order does not resolve to chat 7:
it throws BAD_REQUEST Failed to create chat (the source throws Chat
already exists, and the catch wraps it). -/
theorem createChat_duplicate_throws :
    (createChat envC4 [] dbC4 1 [2] none).result
        = .ok { chatId := 7, creatorId := 1, name := none, createdAt := 3
                lastActivity := 3, messages := [], participants := [1, 2] } ∧
    (createChat envC4 [] (createChat envC4 [] dbC4 1 [2] none).db 2 [1] none).result
        = .error ⟨.badRequest, "Failed to create chat."⟩ := ⟨rfl, rfl⟩

/-- Witness for the C4 theorem: after creating the chat for users 1 and 2,
the swapped-order second call errors and changes nothing. -/
theorem createChat_second_call_rejected_witness :
    (createChat envC4 [] (createChat envC4 [] dbC4 1 [2] none).db 2 [1] none).result
        = .error ⟨.badRequest, "Failed to create chat."⟩ ∧
    (createChat envC4 [] (createChat envC4 [] dbC4 1 [2] none).db 2 [1] none).db
        = (createChat envC4 [] dbC4 1 [2] none).db :=
  createChat_second_call_rejected envC4 envC4 [] [] dbC4 1 2 [2] [1] none none
    { chatId := 7, creatorId := 1, name := none, createdAt := 3, lastActivity := 3
      messages := [], participants := [1, 2] }
    ⟨by decide, by decide, by decide, by decide⟩
    (by
      intro x
      show x ∈ ([1, 2] : List Nat) ↔ x ∈ ([2, 1] : List Nat)
      simp only [List.mem_cons, List.not_mem_nil, or_false]
      tauto)
    rfl

end Chatapp
